import Mathlib

/-!
Shallow embedding of the safety-critical command-orchestration and
diagnostics layers of the salvage_linux repository
(`src/disk_utils.py`, `src/disk_properties.py`).

External effects (subprocess results, filesystem probes) are passed in as
explicit environment parameters; every external invocation the Python code
would perform is recorded as a `Proc` value (argv array or shell line), so
properties about which processes are spawned become properties of the
returned spawn list.
-/

namespace Salvage

/-- A process invocation: either an argv-array launch (`subprocess.check_call`,
`check_output`, `run`, `Popen` with a list) or a shell-interpreted command line
(`Popen(..., shell=True)`). -/
inductive Proc where
  | argv : List String → Proc
  | shellCmd : String → Proc
deriving DecidableEq, Repr

/-!
String primitives are implemented structurally over `List Char` (rather
than through the byte-position-based core `String` functions) so that every
definition evaluates on concrete inputs inside proofs.
-/

/-- Does `s` start with `pre`? (Python `str.startswith`). -/
def sStartsWith (s pre : String) : Bool :=
  pre.toList.isPrefixOf s.toList

/-- Does `s` end with `suf`? (Python `str.endswith`). -/
def sEndsWith (s suf : String) : Bool :=
  suf.toList.isSuffixOf s.toList

/-- Does any character of `s` satisfy `p`? -/
def sAny (s : String) (p : Char → Bool) : Bool :=
  s.toList.any p

/-- Does `s` contain the character `c`? (Python `c in s`). -/
def sContainsChar (s : String) (c : Char) : Bool :=
  s.toList.any (fun d => d == c)

/-- Python `str.strip()`: drop whitespace from both ends. -/
def sTrim (s : String) : String :=
  String.mk (((s.toList.dropWhile Char.isWhitespace).reverse.dropWhile
    Char.isWhitespace).reverse)

/-- Python `str.lower()` (ASCII case fold, all this program needs). -/
def sToLower (s : String) : String :=
  String.mk (s.toList.map Char.toLower)

/-- Split a character list at every occurrence of `sep`. -/
def splitOnChar (sep : Char) : List Char → List (List Char)
  | [] => [[]]
  | c :: rest =>
    match splitOnChar sep rest with
    | [] => [[]]
    | g :: gs => if c = sep then [] :: g :: gs else (c :: g) :: gs

/-- `os.path.basename`: the substring after the last slash. -/
def basename (p : String) : String :=
  String.mk ((splitOnChar '/' p.toList).getLastD [])

/-- Index of the last `/` in a character list (used by `dirname`). -/
def lastSlashIdx : List Char → Nat → Option Nat → Option Nat
  | [], _, acc => acc
  | c :: rest, i, acc => lastSlashIdx rest (i + 1) (if c = '/' then some i else acc)

/-- `os.path.dirname`: everything up to (and including) the last slash;
trailing slashes are then stripped unless the head consists only of
slashes. -/
def dirname (p : String) : String :=
  match lastSlashIdx p.toList 0 none with
  | none => ""
  | some i =>
    let head := p.toList.take (i + 1)
    if head.any (fun c => !(c == '/')) then
      String.mk ((head.reverse.dropWhile (fun c => c == '/')).reverse)
    else String.mk head

/-- Two-argument `os.path.join`. -/
def pathJoin (a b : String) : String :=
  if sStartsWith b "/" then b
  else if a = "" then b
  else if sEndsWith a "/" then a ++ b
  else a ++ "/" ++ b

/-- Remove the trailing run of decimal digits, as `re.sub(r'\d+$', '', s)`. -/
def stripTrailingDigits (s : String) : String :=
  String.mk ((s.toList.reverse.dropWhile Char.isDigit).reverse)

/-- Whether `sub` occurs as a contiguous sublist of `l` (Python `sub in l`). -/
def seqContains (sub : List Char) : List Char → Bool
  | [] => sub.isEmpty
  | c :: rest => sub.isPrefixOf (c :: rest) || seqContains sub rest

/-- Python's `sub in s` substring test. -/
def strContainsSub (s sub : String) : Bool :=
  seqContains sub.toList s.toList

/-! ## DiskUtils (`src/disk_utils.py`) -/

/-- `DiskUtils.protected_dirs` (disk_utils.py:31). -/
def protectedDirs : List String :=
  ["/", "/boot", "/etc", "/usr", "/var", "/bin", "/sbin",
   "/lib", "/lib64", "/opt", "/root", "/proc", "/sys", "/dev", "/run"]

/-- `DiskUtils.allowed_fs_types` (disk_utils.py:37). -/
def allowedFsTypes : List String :=
  ["ntfs", "exfat", "ext4", "ext3", "ext2", "fat32", "vfat", "refs"]

/-- The character class of `re.search(r'[;&|` + "backtick" + `$]', path)`
in `_is_valid_path` (disk_utils.py:189,196). -/
def hasShellMeta (p : String) : Bool :=
  sAny p (fun c => c == ';' || c == '&' || c == '|' || c == Char.ofNat 96 || c == '$')

/-- `DiskUtils._is_valid_path` (disk_utils.py:172-200). -/
def isValidPath (p : String) : Bool :=
  if p = "" then false
  else if sStartsWith p "/dev/" then !(hasShellMeta p)
  else if sStartsWith p "/" then !(hasShellMeta p)
  else false

/-- `DiskUtils._is_system_directory` (disk_utils.py:216-231): equal to a
protected directory or prefixed by `protected_dir + "/"`. -/
def isSystemDirectory (p : String) : Bool :=
  protectedDirs.any (fun d => p == d || sStartsWith p (d ++ "/"))

/-- `DiskUtils.get_filesystem_type` (disk_utils.py:153-170), as a function of
the `blkid` probe outcome: `some out` models a zero-exit run printing `out`,
`none` models `CalledProcessError`. The code returns `output.strip()` on
success and the empty string on failure. -/
def getFilesystemType (probeOut : Option String) : String :=
  match probeOut with
  | some out => sTrim out
  | none => ""

/-- The argv array `get_filesystem_type` launches for a device. -/
def blkidProc (device : String) : Proc :=
  Proc.argv ["blkid", "-o", "value", "-s", "TYPE", device]

/-- `DiskUtils.set_permissions` (disk_utils.py:361-391). `runOk` gives the
exit status of `subprocess.check_call` for a command. Returns the Python
`(success, error_message)` pair plus the list of spawned processes. -/
def setPermissions (runOk : List String → Bool) (mountPoint : String) :
    (Bool × String) × List Proc :=
  if ¬ isValidPath mountPoint then
    ((false, "無効なマウントポイント: " ++ mountPoint), [])
  else if isSystemDirectory mountPoint then
    ((false, "システムディレクトリへの権限付与はできません: " ++ mountPoint), [])
  else
    let cmd := ["chmod", "-R", "777", mountPoint]
    if runOk cmd then ((true, ""), [Proc.argv cmd])
    else ((false, mountPoint ++ " への権限付与に失敗しました"), [Proc.argv cmd])

/-- `DiskUtils.format_disk` (disk_utils.py:300-359). `refsAvail` is the
outcome of `_check_refs_tools_available` (the spawned `which mkfs.refs` call
is recorded when that check runs); `runOk` gives each `check_call`'s exit
status. Failure messages that embed a Python exception string are modelled
by their fixed prefix. -/
def formatDisk (refsAvail : Bool) (runOk : List String → Bool)
    (device fsType : String) : (Bool × String) × List Proc :=
  if ¬ isValidPath device then
    ((false, "無効なデバイスパス: " ++ device), [])
  else if ¬ allowedFsTypes.contains fsType then
    ((false, "サポートされていないファイルシステムタイプ: " ++ fsType), [])
  else if isSystemDirectory device then
    ((false, "システムディレクトリはフォーマットできません: " ++ device), [])
  else if sToLower fsType = "refs" ∧ refsAvail = false then
    ((false, "ReFSツールが見つかりません。必要なツールをインストールしてください。"),
     [Proc.argv ["which", "mkfs.refs"]])
  else
    let pre := if sToLower fsType = "refs" then [Proc.argv ["which", "mkfs.refs"]] else []
    if sToLower fsType = "ntfs" then
      let cmd := ["mkfs.ntfs", "-f", device]
      if runOk cmd then ((true, ""), pre ++ [Proc.argv cmd])
      else ((false, device ++ " のフォーマットに失敗しました"), pre ++ [Proc.argv cmd])
    else if sToLower fsType = "exfat" then
      let cmd := ["mkfs.exfat", device]
      if runOk cmd then ((true, ""), pre ++ [Proc.argv cmd])
      else ((false, device ++ " のフォーマットに失敗しました"), pre ++ [Proc.argv cmd])
    else if sToLower fsType = "refs" then
      let cmd := ["mkfs.refs", device]
      if runOk cmd then ((true, ""), pre ++ [Proc.argv cmd])
      else ((false, device ++ " のフォーマットに失敗しました"), pre ++ [Proc.argv cmd])
    else
      ((false, "サポートされていないファイルシステムタイプ: " ++ fsType), pre)

/-- Environment for `mount_disk`: the `blkid` probe result per device,
`os.path.exists`, whether `os.makedirs` succeeds, and each `check_call`'s
exit status. -/
structure MountEnv where
  probe : String → Option String
  pathExists : String → Bool
  makedirsOk : String → Bool
  runOk : List String → Bool

/-- `DiskUtils.mount_disk` (disk_utils.py:233-298). Returns the Python
`(success, mount_point_or_error, detail)` triple plus spawned processes. -/
def mountDisk (env : MountEnv) (device : String) (mp? : Option String) :
    (Bool × String × String) × List Proc :=
  if ¬ isValidPath device then
    ((false, "無効なデバイスパスが指定されました。", ""), [])
  else
    let mp := match mp? with
      | none => "/mnt/" ++ basename device
      | some m => m
    if ¬ isValidPath mp then
      ((false, "無効なマウントポイントが指定されました。", ""), [])
    else if isSystemDirectory mp then
      ((false, "システムディレクトリへのマウントはできません: " ++ mp, ""), [])
    else if ¬ env.pathExists mp ∧ ¬ env.makedirsOk mp then
      ((false, "マウントポイントの作成に失敗しました", ""), [])
    else
      let fs := getFilesystemType (env.probe device)
      let mountCmd := ["mount"] ++
        (if fs = "ntfs" then ["-t", "ntfs-3g"]
         else if fs = "exfat" then ["-t", "exfat"]
         else []) ++ [device, mp]
      if env.runOk mountCmd then
        ((true, mp, ""), [blkidProc device, Proc.argv mountCmd])
      else
        ((false, device ++ " のマウントに失敗しました", ""), [blkidProc device, Proc.argv mountCmd])

/-- The manager-trial loop of `DiskUtils.open_file_manager`
(disk_utils.py:424-445): a manager name containing a space is launched as a
shell-interpreted line `f"{manager} {mount_point}"`; otherwise `which` is
consulted and on success the manager is launched as an argv array. -/
def tryManagers (whichOk : String → Bool) : List String → String → (Bool × String) × List Proc
  | [], _ => ((false, "利用可能なファイルマネージャーが見つかりません"), [])
  | m :: rest, mp =>
    if sContainsChar m ' ' then
      ((true, ""), [Proc.shellCmd (m ++ " " ++ mp)])
    else if whichOk m then
      ((true, ""), [Proc.argv ["which", m], Proc.argv [m, mp]])
    else
      let r := tryManagers whichOk rest mp
      (r.1, Proc.argv ["which", m] :: r.2)

/-- `DiskUtils.open_file_manager` (disk_utils.py:393-450): validates the
mount point, then tries the configured manager list in order. -/
def openFileManager (whichOk : String → Bool) (managers : List String)
    (mountPoint : String) : (Bool × String) × List Proc :=
  if ¬ isValidPath mountPoint then
    ((false, "無効なマウントポイント: " ++ mountPoint), [])
  else
    tryManagers whichOk managers mountPoint

/-- The single argv invocation of `get_unmounted_disks` /
`get_mounted_disks` (disk_utils.py:50,105). -/
def inventoryProcs : List Proc :=
  [Proc.argv ["lsblk", "-J", "-o", "NAME,SIZE,TYPE,FSTYPE,MOUNTPOINT"]]

/-! ## DiskPropertiesAnalyzer (`src/disk_properties.py`) -/

/-- `DiskPropertiesAnalyzer.smart_thresholds` (disk_properties.py:36-41):
per attribute `(normal, warning, critical)`. -/
def smartThresholds : List (String × Int × Int × Int) :=
  [("Reallocated_Sector_Ct", 0, 10, 10),
   ("Current_Pending_Sector", 0, 5, 5),
   ("Offline_Uncorrectable", 0, 1, 1),
   ("UDMA_CRC_Error_Count", 0, 5, 5)]

/-- The structured result of `_get_smart_info` (disk_properties.py:168-266);
attribute and SATA counters keep the extraction (insertion) order. -/
structure SmartInfo where
  overall_health : String
  attributes : List (String × Int)
  error_log_summary : String
  sata_errors : List (String × Int)
  smart_supported : Bool
deriving DecidableEq, Repr

/-- The `{status, score, issues}` dict built by `_determine_health_status`. -/
structure HealthResult where
  status : String
  score : Int
  issues : List String
deriving DecidableEq, Repr

/-- `self.smart_thresholds.get(attr_name, {})` followed by
`.get("normal"/"warning"/"critical", 0)` (disk_properties.py:381-384). -/
def thresholdFor (name : String) : Int × Int × Int :=
  match smartThresholds.lookup name with
  | some t => t
  | none => (0, 0, 0)

/-- Per-attribute deduction (disk_properties.py:386-392): value above
critical costs 30, above normal costs 10. -/
def attrDeduction (name : String) (v : Int) : Int :=
  if v > (thresholdFor name).2.2 then 30
  else if v > (thresholdFor name).1 then 10
  else 0

/-- Per-attribute issue entries (disk_properties.py:386-392). -/
def attrIssues (name : String) (v : Int) : List String :=
  if v > (thresholdFor name).2.2 then [name ++ ": " ++ toString v ++ " (致命的)"]
  else if v > (thresholdFor name).1 then [name ++ ": " ++ toString v ++ " (警告)"]
  else []

/-- Overall-health deduction (disk_properties.py:368-376). -/
def overallDeduction (h : String) : Int :=
  if h = "PASSED" then 0 else if h = "FAILED" then 50 else 10

/-- Overall-health issue entries (disk_properties.py:368-376). -/
def overallIssues (h : String) : List String :=
  if h = "PASSED" then []
  else if h = "FAILED" then ["S.M.A.R.T.全体テスト: 失敗"]
  else ["S.M.A.R.T.全体テスト: " ++ h]

/-- Error-log deduction (disk_properties.py:395-398). -/
def errorLogDeduction (el : String) : Int :=
  if el = "エラーなし" ∨ el = "利用できません" then 0 else 15

/-- Error-log issue entries (disk_properties.py:395-398). -/
def errorLogIssues (el : String) : List String :=
  if el = "エラーなし" ∨ el = "利用できません" then [] else ["エラーログ: " ++ el]

/-- SATA PHY error deduction, 5 per nonzero counter (disk_properties.py:401-405). -/
def sataDeduction (es : List (String × Int)) : Int :=
  (es.map (fun e => if e.2 > 0 then (5 : Int) else 0)).sum

/-- SATA PHY error issue entries (disk_properties.py:401-405). -/
def sataIssues (es : List (String × Int)) : List String :=
  es.filterMap (fun e =>
    if e.2 > 0 then some ("SATAエラー " ++ e.1 ++ ": " ++ toString e.2) else none)

/-- The score accumulated by `_determine_health_status` from 100
(disk_properties.py:364-405); deductions are sequential subtractions, so the
total is 100 minus their sum and may go below zero. -/
def healthScore (info : SmartInfo) : Int :=
  100 - overallDeduction info.overall_health
      - (info.attributes.map (fun a => attrDeduction a.1 a.2)).sum
      - errorLogDeduction info.error_log_summary
      - sataDeduction info.sata_errors

/-- The issue list accumulated by `_determine_health_status`, in program order. -/
def healthIssues (info : SmartInfo) : List String :=
  overallIssues info.overall_health
    ++ (info.attributes.flatMap (fun a => attrIssues a.1 a.2))
    ++ errorLogIssues info.error_log_summary
    ++ sataIssues info.sata_errors

/-- `DiskPropertiesAnalyzer._determine_health_status` (disk_properties.py:338-418). -/
def determineHealthStatus (info : SmartInfo) : HealthResult :=
  if info.smart_supported = false then
    { status := "不明", score := 0, issues := ["S.M.A.R.T.がサポートされていません"] }
  else
    { status :=
        if healthScore info ≥ 90 then "正常"
        else if healthScore info ≥ 70 then "異常"
        else "故障",
      score := healthScore info,
      issues := healthIssues info }

/-- `DiskPropertiesAnalyzer._is_partition` (disk_properties.py:134-146):
true iff the base name contains at least one digit. -/
def isPartition (devicePath : String) : Bool :=
  sAny (basename devicePath) Char.isDigit

/-- `DiskPropertiesAnalyzer._get_parent_disk` (disk_properties.py:148-166):
strip the trailing digit run from the base name and rejoin with the directory. -/
def getParentDisk (partitionPath : String) : String :=
  pathJoin (dirname partitionPath) (stripTrailingDigits (basename partitionPath))

/-- `lsblk` basic-info fields parsed by `_get_basic_disk_info`
(disk_properties.py:98-132); the JSON parse itself is environment-provided. -/
structure BasicInfo where
  name : String
  size : String
  model : String
  serial : String
  type : String
  fstype : String
deriving DecidableEq, Repr

/-- The filesystem-status dict built by `_get_filesystem_info`
(disk_properties.py:268-336). -/
structure FsInfo where
  fstype : String
  fsck_result : String
  fsck_status : String
  fsck_details : String
deriving DecidableEq, Repr

/-- Environment for the diagnostics engine: parsed results of the external
probes (`smartctl` free-text parsing, `lsblk` JSON parsing) and the exit
status / combined output of the consistency-check command. -/
structure DiagEnv where
  smartOf : String → SmartInfo
  smartNotSupported : String → Bool
  basicOf : String → BasicInfo
  fstypeOut : String → String
  checkOk : List String → Bool
  checkOut : List String → String

/-- `DiskPropertiesAnalyzer._get_smart_info` (disk_properties.py:168-266):
up to three argv `smartctl` passes (summary, error log, extended); when the
summary output reports an unsupported device the function returns before the
error-log and extended passes (disk_properties.py:201-203). The free-text
parsing itself comes from the environment. -/
def getSmartInfo (env : DiagEnv) (device : String) : SmartInfo × List Proc :=
  if env.smartNotSupported device then
    (env.smartOf device, [Proc.argv ["smartctl", "-a", device]])
  else
    (env.smartOf device,
     [Proc.argv ["smartctl", "-a", device],
      Proc.argv ["smartctl", "-l", "error", device],
      Proc.argv ["smartctl", "-x", device]])

/-- `DiskPropertiesAnalyzer._get_filesystem_info` (disk_properties.py:268-336):
probes the fstype with `lsblk`, then runs the filesystem-appropriate
read-only checker and classifies its combined output by substring matching,
truncating details to 1000 characters. -/
def getFilesystemInfo (env : DiagEnv) (device : String) : FsInfo × List Proc :=
  let lsblkCmd := ["lsblk", "-o", "FSTYPE", "-n", device]
  let fstypeRaw := sTrim (env.fstypeOut device)
  let fstype := if fstypeRaw = "" then "未フォーマット" else fstypeRaw
  if fstype ≠ "" ∧ fstype ≠ "未フォーマット" then
    let cmd :=
      if fstype = "ntfs" then ["ntfsfix", "--no-action", device]
      else if fstype = "exfat" then ["fatresize", "-i", device]
      else ["fsck", "-n", device]
    let out := env.checkOut cmd
    let st :=
      if env.checkOk cmd then
        if strContainsSub (sToLower out) "clean" || strContainsSub (sToLower out) "no errors" then
          ("正常", "エラーなし")
        else ("警告", "軽微なエラーあり")
      else
        if strContainsSub (sToLower out) "could not" || strContainsSub (sToLower out) "failed" then
          ("エラー", "実行失敗")
        else ("故障", "重大なエラーあり")
    ({ fstype := fstype, fsck_result := st.2, fsck_status := st.1,
       fsck_details := if out.toList.length > 1000 then String.mk (out.toList.take 1000) else out },
     [Proc.argv lsblkCmd, Proc.argv cmd])
  else
    ({ fstype := fstype, fsck_result := "未実行", fsck_status := "不明",
       fsck_details := "" },
     [Proc.argv lsblkCmd])

/-- The report dict assembled by `get_disk_properties`; optional fields model
keys only present for the disk vs. partition branches. The wall-clock
timestamp field is not modelled. -/
structure DiskReport where
  device_path : String
  basic_info : BasicInfo
  is_partition : Bool
  smart_info : Option SmartInfo
  health_status : Option HealthResult
  parent_disk : Option String
  parent_smart_info : Option SmartInfo
  filesystem_info : Option FsInfo
deriving Repr

/-- `DiskPropertiesAnalyzer.get_disk_properties` (disk_properties.py:43-96):
whole disks get their own SMART data; partitions get a filesystem check plus
the parent disk's SMART data (when the resolved parent name is non-falsy). -/
def getDiskProperties (env : DiagEnv) (device : String) : DiskReport × List Proc :=
  let basicCmd := Proc.argv ["lsblk", "-o", "NAME,SIZE,MODEL,SERIAL,TYPE,FSTYPE", "-J", device]
  let basic := env.basicOf device
  if isPartition device = false then
    let si := getSmartInfo env device
    ({ device_path := device, basic_info := basic, is_partition := false,
       smart_info := some si.1,
       health_status := some (determineHealthStatus si.1),
       parent_disk := none, parent_smart_info := none, filesystem_info := none },
     basicCmd :: si.2)
  else
    let parent := getParentDisk device
    let fi := getFilesystemInfo env device
    if parent ≠ "" then
      let si := getSmartInfo env parent
      ({ device_path := device, basic_info := basic, is_partition := true,
         smart_info := none,
         health_status := some (determineHealthStatus si.1),
         parent_disk := some parent, parent_smart_info := some si.1,
         filesystem_info := some fi.1 },
       basicCmd :: (fi.2 ++ si.2))
    else
      ({ device_path := device, basic_info := basic, is_partition := true,
         smart_info := none, health_status := none,
         parent_disk := none, parent_smart_info := none,
         filesystem_info := some fi.1 },
       basicCmd :: fi.2)

/-- Modelled from the spec's words, for comparison with `isPartition` (the
spec's partition heuristic): a base name "ends in a trailing run of digits"
iff its last character is a digit. -/
def specEndsInDigitRun (s : String) : Bool :=
  match s.toList.getLast? with
  | some c => c.isDigit
  | none => false

/-! ## Theorems -/

/-- C2 (code evidence): `_is_valid_path` accepts the traversal string
`/dev/../../etc`, which contains `..`, and `mount_disk` then proceeds to
spawn processes for it — the repository's own security test
(`tests/system/test_security.py::test_mount_disk_path_validation`) expects
this very string to be rejected with no process spawned. -/
theorem c2_validator_accepts_dotdot :
    isValidPath "/dev/../../etc" = true ∧
    (mountDisk ⟨fun _ => some "ext4\n", fun _ => true, fun _ => true, fun _ => true⟩
        "/dev/../../etc" (some "/mnt/usb")).1.1 = true ∧
    (mountDisk ⟨fun _ => some "ext4\n", fun _ => true, fun _ => true, fun _ => true⟩
        "/dev/../../etc" (some "/mnt/usb")).2 ≠ [] := by decide

/-- C6 (code evidence): `get_filesystem_type` returns the empty string both
when the probe fails (`CalledProcessError`) and when its output is blank,
rather than an explicit not-found error — contradicting the spec and the
repository's own unit tests, which expect `None` / a raised `RuntimeError`. -/
theorem c6_filesystem_type_empty_not_error :
    getFilesystemType none = "" ∧ getFilesystemType (some "") = "" ∧
    getFilesystemType (some "\n") = "" := by decide

/-- C7 counterexample: `ext4` is in `allowed_fs_types`, the target path is
valid and not protected, yet `format_disk` rejects it at dispatch with the
unsupported-type message and spawns nothing, instead of invoking a mkfs
tool. -/
theorem c7_counterexample :
    allowedFsTypes.contains "ext4" = true ∧
    formatDisk true (fun _ => true) "/mnt/usb" "ext4" =
      ((false, "サポートされていないファイルシステムタイプ: ext4"), []) := by decide

/-- C10: for the SmartReport with overall health FAILED,
Reallocated_Sector_Ct = 20, the other three attributes 0, error-log summary
"3 errors" and no SATA PHY errors, the scorer returns exactly score 5
(100 − 50 − 30 − 15), which is ≤ 5, with status Failing (故障). -/
theorem c10_failed_disk_scored :
    determineHealthStatus
        { overall_health := "FAILED",
          attributes := [("Reallocated_Sector_Ct", 20), ("Current_Pending_Sector", 0),
                         ("Offline_Uncorrectable", 0), ("UDMA_CRC_Error_Count", 0)],
          error_log_summary := "3 errors", sata_errors := [], smart_supported := true } =
      { status := "故障", score := 5,
        issues := ["S.M.A.R.T.全体テスト: 失敗", "Reallocated_Sector_Ct: 20 (致命的)",
                   "エラーログ: 3 errors"] } ∧
    (determineHealthStatus
        { overall_health := "FAILED",
          attributes := [("Reallocated_Sector_Ct", 20), ("Current_Pending_Sector", 0),
                         ("Offline_Uncorrectable", 0), ("UDMA_CRC_Error_Count", 0)],
          error_log_summary := "3 errors", sata_errors := [], smart_supported := true }).score ≤ 5 := by
  decide

/-- C5 counterexample: the diagnostics engine classifies `/dev/a1b` as a
partition (its base name contains a digit) although the base name does not
end in a trailing run of digits, refuting the claimed characterization. -/
theorem c5_counterexample :
    isPartition "/dev/a1b" = true ∧
    specEndsInDigitRun (basename "/dev/a1b") = false := by decide

/-- C1 counterexample: with a configured file-manager entry containing a
space, `open_file_manager` launches a shell-interpreted command line into
which the (user-derived) mount point is concatenated. -/
theorem c1_counterexample :
    (openFileManager (fun _ => true) ["pcmanfm --new-win"] "/mnt/usb").2 =
      [Proc.shellCmd "pcmanfm --new-win /mnt/usb"] ∧
    strContainsSub "pcmanfm --new-win /mnt/usb" "/mnt/usb" = true := by decide

/-- C3 counterexample: `/etc/a;b` is nested under the protected directory
`/etc`, yet `set_permissions` classifies the failure as an invalid mount
point (validation runs first), not as a protected-system-directory
rejection. -/
theorem c3_counterexample :
    isSystemDirectory "/etc/a;b" = true ∧
    setPermissions (fun _ => true) "/etc/a;b" =
      ((false, "無効なマウントポイント: /etc/a;b"), []) ∧
    ("無効なマウントポイント: /etc/a;b" : String) ≠
      "システムディレクトリへの権限付与はできません: /etc/a;b" := by decide

/-- Every path with the `/dev/` prefix is classified as a protected system
directory, via the `/dev` entry of `protected_dirs`. -/
lemma isSystemDirectory_of_dev (p : String) (h : sStartsWith p "/dev/" = true) :
    isSystemDirectory p = true := by
  unfold isSystemDirectory
  apply List.any_eq_true.mpr
  refine ⟨"/dev", by decide, ?_⟩
  have e : ("/dev" ++ "/" : String) = "/dev/" := rfl
  rw [e, h]
  simp

/-- C4: for every well-formed (validator-accepted) device path beginning
with `/dev/` and every allow-listed filesystem type, `format_disk` fails
with the protected-system-directory message and spawns no process: the
prefix check classifies every `/dev/...` path as nested under the protected
entry `/dev`. -/
theorem c4_dev_paths_protected (refsAvail : Bool) (runOk : List String → Bool)
    (device fsType : String) (hdev : sStartsWith device "/dev/" = true)
    (hval : isValidPath device = true)
    (hfs : allowedFsTypes.contains fsType = true) :
    formatDisk refsAvail runOk device fsType =
      ((false, "システムディレクトリはフォーマットできません: " ++ device), []) := by
  have hsys := isSystemDirectory_of_dev device hdev
  have hmem : fsType ∈ allowedFsTypes := by simpa using hfs
  unfold formatDisk
  simp [hval, hmem, hsys]

/-- Witness for C4 at the concrete device `/dev/sda1` with type `exfat`. -/
theorem c4_dev_paths_protected_witness :
    formatDisk true (fun _ => true) "/dev/sda1" "exfat" =
      ((false, "システムディレクトリはフォーマットできません: /dev/sda1"), []) := by
  have h := c4_dev_paths_protected true (fun _ => true) "/dev/sda1" "exfat"
    (by decide) (by decide) (by decide)
  rw [h]
  decide

/-- C3 (amended): for every path equal to or nested under a protected
directory (per the code's prefix check), Format and SetPermissions fail and
spawn no external process; the failure carries the
protected-system-directory classification whenever the path passes
validation and, for Format, the filesystem type is allow-listed (otherwise
the earlier validation failure is reported instead). -/
theorem c3_protected_paths_rejected (refsAvail : Bool)
    (runOkF runOkP : List String → Bool) (p fsType : String)
    (hsys : isSystemDirectory p = true) :
    ((formatDisk refsAvail runOkF p fsType).1.1 = false ∧
     (formatDisk refsAvail runOkF p fsType).2 = [] ∧
     (isValidPath p = true → fsType ∈ allowedFsTypes →
       (formatDisk refsAvail runOkF p fsType).1.2 =
         "システムディレクトリはフォーマットできません: " ++ p)) ∧
    ((setPermissions runOkP p).1.1 = false ∧
     (setPermissions runOkP p).2 = [] ∧
     (isValidPath p = true →
       (setPermissions runOkP p).1.2 =
         "システムディレクトリへの権限付与はできません: " ++ p)) := by
  constructor
  · by_cases hv : isValidPath p = true
    · by_cases hf : fsType ∈ allowedFsTypes
      · unfold formatDisk
        simp [hv, hf, hsys]
      · unfold formatDisk
        simp [hv, hf, hsys]
    · unfold formatDisk
      simp [hv]
  · by_cases hv : isValidPath p = true
    · unfold setPermissions
      simp [hv, hsys]
    · unfold setPermissions
      simp [hv]

/-- Witness for C3 at the protected path `/etc/passwd`. -/
theorem c3_protected_paths_rejected_witness :
    (formatDisk true (fun _ => true) "/etc/passwd" "exfat").1.2 =
      "システムディレクトリはフォーマットできません: /etc/passwd" ∧
    (setPermissions (fun _ => true) "/etc/passwd").2 = [] := by
  have h := c3_protected_paths_rejected true (fun _ => true) (fun _ => true)
    "/etc/passwd" "exfat" (by decide)
  refine ⟨?_, h.2.2.1⟩
  have h2 := h.1.2.2 (by decide) (by decide)
  rw [h2]
  decide

/-- `format_disk` on a valid, unprotected target whose type lowercases to
`ntfs` spawns exactly the `mkfs.ntfs -f` invocation. -/
lemma formatDisk_dispatch_ntfs (refsAvail : Bool) (runOk : List String → Bool)
    (device fsType : String) (hval : isValidPath device = true)
    (hallow : fsType ∈ allowedFsTypes) (hsys : isSystemDirectory device = false)
    (hl : sToLower fsType = "ntfs") :
    (formatDisk refsAvail runOk device fsType).2 =
      [Proc.argv ["mkfs.ntfs", "-f", device]] := by
  have hne : ("ntfs" : String) ≠ "refs" := by decide
  cases hc : runOk ["mkfs.ntfs", "-f", device] <;>
    (unfold formatDisk; simp [hval, hallow, hsys, hl, hne, hc])

/-- `format_disk` on a valid, unprotected target whose type lowercases to
`exfat` spawns exactly the `mkfs.exfat` invocation. -/
lemma formatDisk_dispatch_exfat (refsAvail : Bool) (runOk : List String → Bool)
    (device fsType : String) (hval : isValidPath device = true)
    (hallow : fsType ∈ allowedFsTypes) (hsys : isSystemDirectory device = false)
    (hl : sToLower fsType = "exfat") :
    (formatDisk refsAvail runOk device fsType).2 =
      [Proc.argv ["mkfs.exfat", device]] := by
  have hne1 : ("exfat" : String) ≠ "refs" := by decide
  have hne2 : ("exfat" : String) ≠ "ntfs" := by decide
  cases hc : runOk ["mkfs.exfat", device] <;>
    (unfold formatDisk; simp [hval, hallow, hsys, hl, hne1, hne2, hc])

/-- `format_disk` on a valid, unprotected target whose type lowercases to
`refs`, with the ReFS tool available, spawns the `which` probe and then the
`mkfs.refs` invocation. -/
lemma formatDisk_dispatch_refs (runOk : List String → Bool)
    (device fsType : String) (hval : isValidPath device = true)
    (hallow : fsType ∈ allowedFsTypes) (hsys : isSystemDirectory device = false)
    (hl : sToLower fsType = "refs") :
    (formatDisk true runOk device fsType).2 =
      [Proc.argv ["which", "mkfs.refs"], Proc.argv ["mkfs.refs", device]] := by
  have hne1 : ("refs" : String) ≠ "ntfs" := by decide
  have hne2 : ("refs" : String) ≠ "exfat" := by decide
  cases hc : runOk ["mkfs.refs", device] <;>
    (unfold formatDisk; simp [hval, hallow, hsys, hl, hne1, hne2, hc])

/-- `format_disk` on a valid, unprotected target whose lowercased type is
none of `ntfs`/`exfat`/`refs` is rejected at dispatch with the
unsupported-type message and spawns nothing, even for allow-listed types. -/
lemma formatDisk_unsupported_dispatch (refsAvail : Bool) (runOk : List String → Bool)
    (device fsType : String) (hval : isValidPath device = true)
    (hallow : fsType ∈ allowedFsTypes) (hsys : isSystemDirectory device = false)
    (h1 : sToLower fsType ≠ "ntfs") (h2 : sToLower fsType ≠ "exfat")
    (h3 : sToLower fsType ≠ "refs") :
    formatDisk refsAvail runOk device fsType =
      ((false, "サポートされていないファイルシステムタイプ: " ++ fsType), []) := by
  unfold formatDisk
  simp [hval, hallow, hsys, h1, h2, h3]

/-- C7 (amended): on a valid non-protected target, only `ntfs`, `exfat` and
`refs` dispatch to a formatting tool; the other allow-listed types
(`ext4`, `ext3`, `ext2`, `fat32`, `vfat`) pass the allow-list check but are
rejected at dispatch with the unsupported-type message, spawning nothing. -/
theorem c7_format_dispatch (refsAvail : Bool) (runOk : List String → Bool)
    (device : String) (hval : isValidPath device = true)
    (hsys : isSystemDirectory device = false) :
    (formatDisk refsAvail runOk device "ntfs").2 =
      [Proc.argv ["mkfs.ntfs", "-f", device]] ∧
    (formatDisk refsAvail runOk device "exfat").2 =
      [Proc.argv ["mkfs.exfat", device]] ∧
    (formatDisk true runOk device "refs").2 =
      [Proc.argv ["which", "mkfs.refs"], Proc.argv ["mkfs.refs", device]] ∧
    (∀ fs, fs ∈ (["ext4", "ext3", "ext2", "fat32", "vfat"] : List String) →
      formatDisk refsAvail runOk device fs =
        ((false, "サポートされていないファイルシステムタイプ: " ++ fs), [])) := by
  refine ⟨?_, ?_, ?_, ?_⟩
  · exact formatDisk_dispatch_ntfs refsAvail runOk device "ntfs" hval (by decide) hsys (by decide)
  · exact formatDisk_dispatch_exfat refsAvail runOk device "exfat" hval (by decide) hsys (by decide)
  · exact formatDisk_dispatch_refs runOk device "refs" hval (by decide) hsys (by decide)
  · intro fs hfs
    simp only [List.mem_cons, List.not_mem_nil, or_false] at hfs
    rcases hfs with rfl | rfl | rfl | rfl | rfl <;>
      exact formatDisk_unsupported_dispatch refsAvail runOk device _ hval (by decide) hsys
        (by decide) (by decide) (by decide)

/-- Witness for C7 at the concrete target `/mnt/usb`. -/
theorem c7_format_dispatch_witness :
    (formatDisk true (fun _ => true) "/mnt/usb" "ntfs").2 =
      [Proc.argv ["mkfs.ntfs", "-f", "/mnt/usb"]] ∧
    formatDisk true (fun _ => true) "/mnt/usb" "vfat" =
      ((false, "サポートされていないファイルシステムタイプ: vfat"), []) := by
  have h := c7_format_dispatch true (fun _ => true) "/mnt/usb" (by decide) (by decide)
  refine ⟨h.1, ?_⟩
  have h2 := h.2.2.2 "vfat" (by decide)
  rw [h2]
  decide

/-- C8: for a mount of a validated device onto a validated, non-protected
mount point (whose directory exists or can be created), the spawned mount
command is `mount`, followed by `-t ntfs-3g` when the probed filesystem type
is `ntfs`, `-t exfat` when it is `exfat`, and no `-t` flag otherwise, and it
always ends with the device path followed by the mount point. -/
theorem c8_mount_command (env : MountEnv) (device mp : String)
    (hdev : isValidPath device = true) (hmp : isValidPath mp = true)
    (hsys : isSystemDirectory mp = false)
    (hmk : env.pathExists mp = true ∨ env.makedirsOk mp = true) :
    (mountDisk env device (some mp)).2 =
      [blkidProc device,
       Proc.argv (["mount"] ++
         (if getFilesystemType (env.probe device) = "ntfs" then ["-t", "ntfs-3g"]
          else if getFilesystemType (env.probe device) = "exfat" then ["-t", "exfat"]
          else []) ++ [device, mp])] := by
  unfold mountDisk
  rcases hmk with h | h <;> (simp [hdev, hmp, hsys, h]; repeat' split) <;> rfl

/-- Witness for C8 on `/dev/sda1` mounted at `/mnt/usb` with an `ntfs`
probe result. -/
theorem c8_mount_command_witness :
    (mountDisk ⟨fun _ => some "ntfs\n", fun _ => true, fun _ => true, fun _ => true⟩
        "/dev/sda1" (some "/mnt/usb")).2 =
      [blkidProc "/dev/sda1",
       Proc.argv ["mount", "-t", "ntfs-3g", "/dev/sda1", "/mnt/usb"]] := by
  have h := c8_mount_command
    ⟨fun _ => some "ntfs\n", fun _ => true, fun _ => true, fun _ => true⟩
    "/dev/sda1" "/mnt/usb" (by decide) (by decide) (by decide) (Or.inl rfl)
  rw [h]
  decide

/-- C9: whenever SMART is supported, the reported status is determined
solely by the reported score through the bands score ≥ 90 → 正常 (Normal),
70 ≤ score < 90 → 異常 (Degraded), score < 70 → 故障 (Failing); and the
score is not clamped at zero — some supported report yields a negative
score. -/
theorem c9_score_bands :
    (∀ info : SmartInfo, info.smart_supported = true →
      ((determineHealthStatus info).status = "正常" ↔
        90 ≤ (determineHealthStatus info).score) ∧
      ((determineHealthStatus info).status = "異常" ↔
        (70 ≤ (determineHealthStatus info).score ∧
          (determineHealthStatus info).score < 90)) ∧
      ((determineHealthStatus info).status = "故障" ↔
        (determineHealthStatus info).score < 70)) ∧
    (∃ info : SmartInfo, info.smart_supported = true ∧
      (determineHealthStatus info).score < 0) := by
  constructor
  · intro info hs
    have hne1 : ¬ (("正常" : String) = "異常") := by decide
    have hne2 : ¬ (("正常" : String) = "故障") := by decide
    have hne3 : ¬ (("異常" : String) = "正常") := by decide
    have hne4 : ¬ (("異常" : String) = "故障") := by decide
    have hne5 : ¬ (("故障" : String) = "正常") := by decide
    have hne6 : ¬ (("故障" : String) = "異常") := by decide
    unfold determineHealthStatus
    rw [if_neg (by simp [hs])]
    by_cases h1 : healthScore info ≥ 90
    · simp [h1, hne1, hne2]
      omega
    · by_cases h2 : healthScore info ≥ 70
      · simp [h1, h2, hne3, hne4]
        omega
      · simp [h1, h2, hne5, hne6]
        omega
  · exact ⟨⟨"FAILED",
      [("Reallocated_Sector_Ct", 100), ("Current_Pending_Sector", 100),
       ("Offline_Uncorrectable", 100), ("UDMA_CRC_Error_Count", 100)],
      "3 errors", [], true⟩, by decide, by decide⟩

/-- Witness for C9 on a concrete supported report. -/
theorem c9_score_bands_witness :
    (determineHealthStatus
        ⟨"FAILED", [("Reallocated_Sector_Ct", 20)], "3 errors", [], true⟩).status = "故障" ↔
      (determineHealthStatus
        ⟨"FAILED", [("Reallocated_Sector_Ct", 20)], "3 errors", [], true⟩).score < 70 :=
  (c9_score_bands.1
    ⟨"FAILED", [("Reallocated_Sector_Ct", 20)], "3 errors", [], true⟩ (by decide)).2.2

/-- The parsed SMART structure returned by `getSmartInfo` is the
environment's, irrespective of the early-return path. -/
lemma getSmartInfo_fst (env : DiagEnv) (d : String) :
    (getSmartInfo env d).1 = env.smartOf d := by
  unfold getSmartInfo
  split <;> rfl

/-- C5 (amended): the diagnostics engine classifies a device path as a
partition exactly when its base name contains at least one digit (not only
trailing digit runs); for such a partition with a non-empty resolved parent,
the parent disk path is the base name with its trailing digit run stripped,
rejoined to the directory, and the report carries the parent disk's SMART
data and the health status derived from it; a whole-disk path carries its
own SMART data. -/
theorem c5_partition_routing (env : DiagEnv) (p : String) :
    (isPartition p = sAny (basename p) Char.isDigit) ∧
    (isPartition p = false →
      (getDiskProperties env p).1.smart_info = some (env.smartOf p) ∧
      (getDiskProperties env p).1.health_status =
        some (determineHealthStatus (env.smartOf p))) ∧
    (isPartition p = true → getParentDisk p ≠ "" →
      (getDiskProperties env p).1.parent_disk = some (getParentDisk p) ∧
      (getDiskProperties env p).1.parent_smart_info =
        some (env.smartOf (getParentDisk p)) ∧
      (getDiskProperties env p).1.health_status =
        some (determineHealthStatus (env.smartOf (getParentDisk p))) ∧
      getParentDisk p = pathJoin (dirname p) (stripTrailingDigits (basename p))) := by
  refine ⟨rfl, ?_, ?_⟩
  · intro hnp
    unfold getDiskProperties
    simp [hnp, getSmartInfo_fst]
  · intro hp hpar
    refine ⟨?_, ?_, ?_, rfl⟩ <;>
      (unfold getDiskProperties; simp [hp, hpar, getSmartInfo_fst])

/-- A diagnostics environment with constant probe results, for witnesses. -/
def constDiagEnv : DiagEnv :=
  ⟨fun _ => ⟨"PASSED", [], "エラーなし", [], true⟩, fun _ => false,
   fun _ => ⟨"", "", "", "", "", ""⟩, fun _ => "", fun _ => true, fun _ => ""⟩

/-- Witness for C5: the report for the partition `/dev/sda1` carries the
SMART data of its parent `/dev/sda`. -/
theorem c5_partition_routing_witness :
    (getDiskProperties constDiagEnv "/dev/sda1").1.parent_smart_info =
      some (constDiagEnv.smartOf "/dev/sda") := by
  have h := (c5_partition_routing constDiagEnv "/dev/sda1").2.2 (by decide) (by decide)
  have e : getParentDisk "/dev/sda1" = "/dev/sda" := by decide
  rw [h.2.1, e]

/-- Every process `set_permissions` spawns is an argv array. -/
lemma setPermissions_spawns_argv (runOk : List String → Bool) (mp : String) :
    ∀ pr ∈ (setPermissions runOk mp).2, ∃ a, pr = Proc.argv a := by
  intro pr hpr
  unfold setPermissions at hpr
  dsimp only at hpr
  repeat' split at hpr
  all_goals simp at hpr
  all_goals exact ⟨_, hpr⟩

/-- Every process `format_disk` spawns is an argv array. -/
lemma formatDisk_spawns_argv (refsAvail : Bool) (runOk : List String → Bool)
    (device fsType : String) :
    ∀ pr ∈ (formatDisk refsAvail runOk device fsType).2, ∃ a, pr = Proc.argv a := by
  intro pr hpr
  unfold formatDisk at hpr
  dsimp only at hpr
  repeat' split at hpr
  all_goals simp at hpr
  all_goals try exact ⟨_, hpr⟩
  all_goals (rcases hpr with rfl | rfl <;> exact ⟨_, rfl⟩)

/-- Every process `mount_disk` spawns is an argv array. -/
lemma mountDisk_spawns_argv (env : MountEnv) (device : String) (mp? : Option String) :
    ∀ pr ∈ (mountDisk env device mp?).2, ∃ a, pr = Proc.argv a := by
  intro pr hpr
  unfold mountDisk at hpr
  dsimp only at hpr
  repeat' split at hpr
  all_goals simp [blkidProc] at hpr
  all_goals (rcases hpr with rfl | rfl <;> exact ⟨_, rfl⟩)

/-- Every process `_get_smart_info` spawns is an argv array. -/
lemma getSmartInfo_spawns_argv (env : DiagEnv) (d : String) :
    ∀ pr ∈ (getSmartInfo env d).2, ∃ a, pr = Proc.argv a := by
  intro pr hpr
  unfold getSmartInfo at hpr
  split at hpr
  · simp at hpr
    exact ⟨_, hpr⟩
  · simp at hpr
    rcases hpr with rfl | rfl | rfl <;> exact ⟨_, rfl⟩

/-- Every process `_get_filesystem_info` spawns is an argv array. -/
lemma getFilesystemInfo_spawns_argv (env : DiagEnv) (d : String) :
    ∀ pr ∈ (getFilesystemInfo env d).2, ∃ a, pr = Proc.argv a := by
  intro pr hpr
  unfold getFilesystemInfo at hpr
  dsimp only at hpr
  repeat' split at hpr
  all_goals simp at hpr
  all_goals try exact ⟨_, hpr⟩
  all_goals (rcases hpr with rfl | rfl <;> exact ⟨_, rfl⟩)

/-- Every process `get_disk_properties` spawns is an argv array. -/
lemma getDiskProperties_spawns_argv (env : DiagEnv) (d : String) :
    ∀ pr ∈ (getDiskProperties env d).2, ∃ a, pr = Proc.argv a := by
  intro pr hpr
  unfold getDiskProperties at hpr
  dsimp only at hpr
  split at hpr
  · simp at hpr
    rcases hpr with rfl | h
    · exact ⟨_, rfl⟩
    · exact getSmartInfo_spawns_argv env d pr h
  · split at hpr
    · simp at hpr
      rcases hpr with rfl | h | h
      · exact ⟨_, rfl⟩
      · exact getFilesystemInfo_spawns_argv env d pr h
      · exact getSmartInfo_spawns_argv env _ pr h
    · simp at hpr
      rcases hpr with rfl | h
      · exact ⟨_, rfl⟩
      · exact getFilesystemInfo_spawns_argv env d pr h

/-- Every process the manager-trial loop spawns is an argv array, except the
shell launch of a manager whose configured name contains a space, whose
command line is the manager concatenated with the mount point. -/
lemma tryManagers_spawns (whichOk : String → Bool) (ms : List String) (mp : String) :
    ∀ pr ∈ (tryManagers whichOk ms mp).2,
      (∃ a, pr = Proc.argv a) ∨
      (∃ m, m ∈ ms ∧ sContainsChar m ' ' = true ∧
        pr = Proc.shellCmd (m ++ " " ++ mp)) := by
  induction ms with
  | nil =>
    intro pr hpr
    simp [tryManagers] at hpr
  | cons m rest ih =>
    intro pr hpr
    unfold tryManagers at hpr
    split at hpr
    · rename_i hcond
      simp at hpr
      subst hpr
      exact Or.inr ⟨m, by simp, hcond, rfl⟩
    · split at hpr
      · simp at hpr
        rcases hpr with rfl | rfl <;> exact Or.inl ⟨_, rfl⟩
      · simp at hpr
        rcases hpr with rfl | h
        · exact Or.inl ⟨_, rfl⟩
        · rcases ih pr h with h' | ⟨m', hm', hc', he'⟩
          · exact Or.inl h'
          · exact Or.inr ⟨m', by simp [hm'], hc', he'⟩

/-- C1 (amended): mount, format, set-permissions, inventory and diagnostics
pass every external invocation as a discrete argv array and never make a
shell-interpreting call; `open_file_manager` does the same, except that a
configured file-manager entry containing a space is launched as a
shell-interpreted command line formed by concatenating that entry and the
mount point. -/
theorem c1_argv_only_except_spaced_manager :
    (∀ refsAvail runOk device fsType,
      ∀ pr ∈ (formatDisk refsAvail runOk device fsType).2, ∃ a, pr = Proc.argv a) ∧
    (∀ runOk mp, ∀ pr ∈ (setPermissions runOk mp).2, ∃ a, pr = Proc.argv a) ∧
    (∀ env device mp?, ∀ pr ∈ (mountDisk env device mp?).2, ∃ a, pr = Proc.argv a) ∧
    (∀ pr ∈ inventoryProcs, ∃ a, pr = Proc.argv a) ∧
    (∀ env device, ∀ pr ∈ (getDiskProperties env device).2, ∃ a, pr = Proc.argv a) ∧
    (∀ whichOk managers mp, ∀ pr ∈ (openFileManager whichOk managers mp).2,
      (∃ a, pr = Proc.argv a) ∨
      (∃ m, m ∈ managers ∧ sContainsChar m ' ' = true ∧
        pr = Proc.shellCmd (m ++ " " ++ mp))) := by
  refine ⟨formatDisk_spawns_argv, setPermissions_spawns_argv, mountDisk_spawns_argv,
    ?_, getDiskProperties_spawns_argv, ?_⟩
  · intro pr hpr
    simp [inventoryProcs] at hpr
    exact ⟨_, hpr⟩
  · intro whichOk managers mp pr hpr
    unfold openFileManager at hpr
    split at hpr
    · simp at hpr
    · exact tryManagers_spawns whichOk managers mp pr hpr

/-- Witness for C1 on a concrete manager list: the `which` probe for an
absent manager is an argv invocation. -/
theorem c1_argv_only_witness :
    (∃ a, Proc.argv ["which", "thunar"] = Proc.argv a) ∨
    (∃ m, m ∈ (["thunar"] : List String) ∧ sContainsChar m ' ' = true ∧
      Proc.argv ["which", "thunar"] = Proc.shellCmd (m ++ " " ++ "/mnt/usb")) :=
  c1_argv_only_except_spaced_manager.2.2.2.2.2 (fun _ => false) ["thunar"] "/mnt/usb"
    (Proc.argv ["which", "thunar"]) (by decide)

end Salvage
